import Mathlib

/-!
Verification of the handcake MIDI-to-script bridge (src/main.rs).

The development shallowly embeds the data model and the control flow of
`main`: the `Message` tagged union, the per-variant translation of a MIDI
message into a Lua record, the dispatch loop that drains the event bus and
invokes the optional `on_midi_recv` handler, and the straight-line
bootstrap sequence with its fatal-error exits.
-/

namespace Handcake

/-- MIDI channel encodings, as in the `midi_control` crate's `Channel`
enum: sixteen variants `Ch1` .. `Ch16`. -/
inductive Channel
  | Ch1 | Ch2 | Ch3 | Ch4 | Ch5 | Ch6 | Ch7 | Ch8
  | Ch9 | Ch10 | Ch11 | Ch12 | Ch13 | Ch14 | Ch15 | Ch16
deriving DecidableEq, Repr

/-- A key event (note number and velocity), as in `midi_control::KeyEvent`;
both fields are `u8`, modelled as `Nat` (values below 256). -/
structure KeyEvent where
  key : Nat
  value : Nat
deriving DecidableEq, Repr

/-- A control-change event, as in `midi_control::ControlEvent`; both
fields are `u8`, modelled as `Nat`. -/
structure ControlEvent where
  control : Nat
  value : Nat
deriving DecidableEq, Repr

/-- The decoded MIDI message, as in `midi_control::MidiMessage`: one
variant per hardware event kind plus the `Invalid` sentinel. Variants not
handled by the translation match (`PolyKeyPressure`, `ChannelPressure`,
`SysEx`) are kept so the catch-all arm is meaningful. -/
inductive MidiMessage
  | NoteOn (channel : Channel) (key : KeyEvent)
  | NoteOff (channel : Channel) (key : KeyEvent)
  | PolyKeyPressure (channel : Channel) (key : KeyEvent)
  | ControlChange (channel : Channel) (cc : ControlEvent)
  | ProgramChange (channel : Channel) (prgm : Nat)
  | ChannelPressure (channel : Channel) (pressure : Nat)
  | PitchBend (channel : Channel) (lsb : Nat) (msb : Nat)
  | SysEx
  | Invalid
deriving DecidableEq, Repr

/-- The bus message type of `main.rs`: `pub enum Message { Midi(MidiMessage) }`. -/
inductive Message
  | Midi (midi : MidiMessage)
deriving DecidableEq, Repr

/-- A Lua value as produced by the translation table: strings, integers
and booleans. -/
inductive LuaValue
  | str (s : String)
  | num (n : Nat)
  | bool (b : Bool)
deriving DecidableEq, Repr

/-- A Lua table built by successive `tab.set(k, v)` calls, kept in
insertion order. -/
abbrev LuaTable := List (String × LuaValue)

/-- Modelled from the spec: `util::midi_channel_to_num` (src/util.rs is
not part of the provided sources). The spec states channel normalization
is injective and total over all 16 hardware channel encodings, always
producing an integer in [0,15]; `Ch1` .. `Ch16` map to 0 .. 15. -/
def midi_channel_to_num : Channel → Nat
  | .Ch1 => 0 | .Ch2 => 1 | .Ch3 => 2 | .Ch4 => 3
  | .Ch5 => 4 | .Ch6 => 5 | .Ch7 => 6 | .Ch8 => 7
  | .Ch9 => 8 | .Ch10 => 9 | .Ch11 => 10 | .Ch12 => 11
  | .Ch13 => 12 | .Ch14 => 13 | .Ch15 => 14 | .Ch16 => 15

/-- The `if let MidiMessage::Invalid = midi { continue; }` test of
main.rs line 121. -/
def isInvalid : MidiMessage → Bool
  | .Invalid => true
  | _ => false

/-- The pitch-bend combination of main.rs line 155:
`let true_val: u16 = ((*msb as u16) << 8) | *lsb as u16;`.
The `% 256` model the `u8` source type of each byte and the final
`% 65536` the `u16` result type. -/
def pitchBendValue (lsb msb : Nat) : Nat :=
  (((msb % 256) <<< 8) ||| (lsb % 256)) % 65536

/-- The translation match of main.rs lines 127-163: maps a MIDI message
to the Lua record built by the corresponding arm, in `tab.set` order;
`none` for the catch-all arm (which logs and continues). -/
def translate : MidiMessage → Option LuaTable
  | .NoteOn channel key =>
      some [("event", .str "note_on"),
            ("channel", .num (midi_channel_to_num channel)),
            ("key", .num key.key),
            ("vel", .num key.value),
            ("is_note", .bool true)]
  | .NoteOff channel key =>
      some [("event", .str "note_off"),
            ("channel", .num (midi_channel_to_num channel)),
            ("key", .num key.key),
            ("vel", .num key.value),
            ("is_note", .bool true)]
  | .ControlChange channel cc =>
      some [("event", .str "control_change"),
            ("channel", .num (midi_channel_to_num channel)),
            ("control", .num cc.control),
            ("value", .num cc.value)]
  | .ProgramChange channel prgm =>
      some [("event", .str "program_change"),
            ("channel", .num (midi_channel_to_num channel)),
            ("program", .num prgm)]
  | .PitchBend channel lsb msb =>
      some [("channel", .num (midi_channel_to_num channel)),
            ("event", .str "pitch_bend"),
            ("value", .num (pitchBendValue lsb msb))]
  | _ => none

/-- A message is deliverable when it passes the `Invalid` pre-check and
the translation match covers its variant. -/
def deliverable : Message → Bool
  | .Midi midi => !(isInvalid midi) && (translate midi).isSome

/-- A registered `on_midi_recv` handler: takes the translated record and
the script-visible state, returns the new state or a script-level error
(a Lua error raised during the call). -/
abbrev Handler (σ : Type) := LuaTable → σ → Except String σ

/-- The per-message lookup `lua.globals().get::<Function>("on_midi_recv")`
of main.rs line 116: resolved afresh from the current interpreter state;
`none` models the failed lookup (`is_err`). -/
abbrev HandlerLookup (σ : Type) := σ → Option (Handler σ)

/-- The dispatch thread's state after handling a message: still running
with script state `s`, or dead from an unwrapped handler error
(main.rs line 165). -/
inductive ThreadState (σ : Type)
  | running (s : σ)
  | panicked (e : String)
deriving DecidableEq, Repr

/-- One iteration of the dispatch loop body (main.rs lines 114-166):
lock the interpreter, look up `on_midi_recv` (continue when absent), skip
`Invalid`, translate (the catch-all arm continues), then call the handler
once with the record as sole argument, unwrapping its result. Also
returns the list of records passed to the handler (empty or a
singleton). -/
def dispatchStep (lookup : HandlerLookup σ) (st : σ) :
    Message → ThreadState σ × List LuaTable
  | .Midi midi =>
    match lookup st with
    | none => (.running st, [])
    | some f =>
      if isInvalid midi then (.running st, [])
      else
        match translate midi with
        | none => (.running st, [])
        | some tab =>
          match f tab st with
          | .ok st2 => (.running st2, [tab])
          | .error e => (.panicked e, [tab])

/-- The dispatch loop (main.rs lines 112-167): drains the listed
messages in order, threading the script state; an unwrapped handler
error kills the thread, leaving the remaining messages unprocessed.
Returns the final thread state and the records delivered to the handler,
in delivery order. -/
def dispatchLoop (lookup : HandlerLookup σ) (st : σ) :
    List Message → ThreadState σ × List LuaTable
  | [] => (.running st, [])
  | m :: ms =>
    match dispatchStep lookup st m with
    | (.running st2, r) =>
      let rest := dispatchLoop lookup st2 ms
      (rest.1, r ++ rest.2)
    | (.panicked e, r) => (.panicked e, r)

/-- The observable steps of `main` before the steady state, in source
order (main.rs lines 62-112). -/
inductive BootStep
  | checkScriptPath
  | checkUinputPath
  | openUinput
  | readScript
  | newLua
  | loadChunk
  | registerMidi
  | registerGamepad
  | registerMisc
  | execTopLevel
  | lookupScriptInit
  | callScriptInit
  | spawnDispatchThread
  | drainBus
deriving DecidableEq, Repr

/-- The environment a bootstrap run faces: which checks pass and which
fallible operations succeed. -/
structure BootEnv where
  scriptPathExists : Bool
  uinputPathExists : Bool
  uinputOpenOk : Bool
  readScriptOk : Bool
  loadChunkOk : Bool
  registerMidiOk : Bool
  registerGamepadOk : Bool
  registerMiscOk : Bool
  execOk : Bool
  hasScriptInit : Bool
  scriptInitOk : Bool
deriving DecidableEq, Repr

/-- How a bootstrap run ends: `exited c` for `std::process::exit(c)` or
an `Err` propagated out of `main` (the Rust runtime reports it and exits
with code 1), `panickedBoot` for an `unwrap` panic, `dispatching` when
the dispatch thread is spawned and starts draining the bus. -/
inductive BootOutcome
  | exited (code : Nat)
  | panickedBoot
  | dispatching
deriving DecidableEq, Repr

/-- The straight-line control flow of `main` (main.rs lines 59-112):
script-path check (`fatal_error` exits 1), uinput path check
(`fatal_error`) and open (`?`), script read (`?`), `Lua::new`,
`load`/`set_name` (`?`), the three `register_api(..).unwrap()` calls,
`exec` (`?`), `on_script_init` lookup (`?`) and call (`?`), then thread
spawn and bus drain. Returns the steps performed, in order, and the
outcome. -/
def bootTrace (e : BootEnv) : List BootStep × BootOutcome :=
  if !e.scriptPathExists then ([.checkScriptPath], .exited 1)
  else if !e.uinputPathExists then
    ([.checkScriptPath, .checkUinputPath], .exited 1)
  else if !e.uinputOpenOk then
    ([.checkScriptPath, .checkUinputPath, .openUinput], .exited 1)
  else if !e.readScriptOk then
    ([.checkScriptPath, .checkUinputPath, .openUinput, .readScript],
     .exited 1)
  else if !e.loadChunkOk then
    ([.checkScriptPath, .checkUinputPath, .openUinput, .readScript,
      .newLua, .loadChunk], .exited 1)
  else if !e.registerMidiOk then
    ([.checkScriptPath, .checkUinputPath, .openUinput, .readScript,
      .newLua, .loadChunk, .registerMidi], .panickedBoot)
  else if !e.registerGamepadOk then
    ([.checkScriptPath, .checkUinputPath, .openUinput, .readScript,
      .newLua, .loadChunk, .registerMidi, .registerGamepad], .panickedBoot)
  else if !e.registerMiscOk then
    ([.checkScriptPath, .checkUinputPath, .openUinput, .readScript,
      .newLua, .loadChunk, .registerMidi, .registerGamepad, .registerMisc],
     .panickedBoot)
  else if !e.execOk then
    ([.checkScriptPath, .checkUinputPath, .openUinput, .readScript,
      .newLua, .loadChunk, .registerMidi, .registerGamepad, .registerMisc,
      .execTopLevel], .exited 1)
  else if !e.hasScriptInit then
    ([.checkScriptPath, .checkUinputPath, .openUinput, .readScript,
      .newLua, .loadChunk, .registerMidi, .registerGamepad, .registerMisc,
      .execTopLevel, .lookupScriptInit], .exited 1)
  else if !e.scriptInitOk then
    ([.checkScriptPath, .checkUinputPath, .openUinput, .readScript,
      .newLua, .loadChunk, .registerMidi, .registerGamepad, .registerMisc,
      .execTopLevel, .lookupScriptInit, .callScriptInit], .exited 1)
  else
    ([.checkScriptPath, .checkUinputPath, .openUinput, .readScript,
      .newLua, .loadChunk, .registerMidi, .registerGamepad, .registerMisc,
      .execTopLevel, .lookupScriptInit, .callScriptInit,
      .spawnDispatchThread, .drainBus], .dispatching)

/-- The steps a bootstrap run performs, in order. -/
def bootSteps (e : BootEnv) : List BootStep := (bootTrace e).1

/-- The keys of a translated record, in insertion order. -/
def keysOf (t : LuaTable) : List String := t.map Prod.fst

theorem pitchBendValue_in_range (lsb msb : Nat) (hl : lsb < 256)
    (hm : msb < 256) : pitchBendValue lsb msb = (msb <<< 8) ||| lsb := by
  unfold pitchBendValue
  rw [Nat.mod_eq_of_lt hl, Nat.mod_eq_of_lt hm]
  have h1 : msb <<< 8 < 2 ^ 16 := by
    rw [Nat.shiftLeft_eq]
    norm_num
    omega
  have h2 : lsb < 2 ^ 16 := lt_trans hl (by norm_num)
  have h3 : (msb <<< 8) ||| lsb < 2 ^ 16 := Nat.or_lt_two_pow h1 h2
  exact Nat.mod_eq_of_lt (by norm_num at h3 ⊢; exact h3)

/-- C1: for every pitch-bend message with least-significant byte `lsb` and
most-significant byte `msb` (both `u8`, hence below 256), the translated
record's `value` field equals `(msb <<< 8) ||| lsb`, computed exactly
(the 16-bit result type truncates nothing). -/
theorem pitch_bend_value_exact (ch : Channel) (lsb msb : Nat)
    (hl : lsb < 256) (hm : msb < 256) :
    (translate (.PitchBend ch lsb msb)).bind (fun t => t.lookup "value")
      = some (.num ((msb <<< 8) ||| lsb)) := by
  have h : (translate (.PitchBend ch lsb msb)).bind
      (fun t => t.lookup "value") = some (.num (pitchBendValue lsb msb)) := by
    rfl
  rw [h, pitchBendValue_in_range lsb msb hl hm]

/-- C1 witness: with `lsb = 0x34` and `msb = 0x12` the `value` field is
`0x1234 = 4660`. -/
theorem pitch_bend_value_exact_witness :
    (0x34 < 256 ∧ 0x12 < 256) ∧
    (translate (.PitchBend .Ch1 0x34 0x12)).bind (fun t => t.lookup "value")
      = some (.num 4660) :=
  ⟨⟨by decide, by decide⟩,
   (pitch_bend_value_exact .Ch1 0x34 0x12 (by decide) (by decide)).trans
     (by decide)⟩

/-- C2: for every valid (translatable) Message variant, the translated
record's key set exactly matches the documented schema for that variant,
with no other keys: note-on/note-off give `{event, channel, key, vel,
is_note}` with event `"note_on"`/`"note_off"` and `is_note = true`;
control-change gives `{event, channel, control, value}`; program-change
gives `{event, channel, program}`; pitch-bend gives
`{event, channel, value}`. -/
theorem translate_schema_exact (ch : Channel) (k : KeyEvent)
    (cc : ControlEvent) (prgm lsb msb : Nat) :
    (translate (.NoteOn ch k)).map keysOf
        = some ["event", "channel", "key", "vel", "is_note"]
    ∧ (translate (.NoteOn ch k)).bind (fun t => t.lookup "event")
        = some (.str "note_on")
    ∧ (translate (.NoteOn ch k)).bind (fun t => t.lookup "is_note")
        = some (.bool true)
    ∧ (translate (.NoteOff ch k)).map keysOf
        = some ["event", "channel", "key", "vel", "is_note"]
    ∧ (translate (.NoteOff ch k)).bind (fun t => t.lookup "event")
        = some (.str "note_off")
    ∧ (translate (.NoteOff ch k)).bind (fun t => t.lookup "is_note")
        = some (.bool true)
    ∧ (translate (.ControlChange ch cc)).map keysOf
        = some ["event", "channel", "control", "value"]
    ∧ (translate (.ControlChange ch cc)).bind (fun t => t.lookup "event")
        = some (.str "control_change")
    ∧ (translate (.ProgramChange ch prgm)).map keysOf
        = some ["event", "channel", "program"]
    ∧ (translate (.ProgramChange ch prgm)).bind (fun t => t.lookup "event")
        = some (.str "program_change")
    ∧ (translate (.PitchBend ch lsb msb)).map keysOf
        = some ["channel", "event", "value"]
    ∧ List.Perm ["channel", "event", "value"] ["event", "channel", "value"]
    ∧ (translate (.PitchBend ch lsb msb)).bind (fun t => t.lookup "event")
        = some (.str "pitch_bend") :=
  ⟨rfl, rfl, rfl, rfl, rfl, rfl, rfl, rfl, rfl, rfl, rfl, by decide, rfl⟩

theorem dispatchLoop_cons {σ : Type} (lookup : HandlerLookup σ) (st : σ)
    (m : Message) (ms : List Message) :
    dispatchLoop lookup st (m :: ms) =
      match dispatchStep lookup st m with
      | (.running st2, r) =>
        ((dispatchLoop lookup st2 ms).1, r ++ (dispatchLoop lookup st2 ms).2)
      | (.panicked e, r) => (.panicked e, r) := rfl

theorem dispatchStep_no_handler {σ : Type} (lookup : HandlerLookup σ)
    (st : σ) (midi : MidiMessage) (h : lookup st = none) :
    dispatchStep lookup st (.Midi midi) = (.running st, []) := by
  simp [dispatchStep, h]

theorem dispatchStep_invalid {σ : Type} (lookup : HandlerLookup σ)
    (st : σ) (midi : MidiMessage) (f : Handler σ) (h : lookup st = some f)
    (hi : isInvalid midi = true) :
    dispatchStep lookup st (.Midi midi) = (.running st, []) := by
  simp [dispatchStep, h, hi]

theorem dispatchStep_untranslatable {σ : Type} (lookup : HandlerLookup σ)
    (st : σ) (midi : MidiMessage) (f : Handler σ) (h : lookup st = some f)
    (hi : isInvalid midi = false) (ht : translate midi = none) :
    dispatchStep lookup st (.Midi midi) = (.running st, []) := by
  simp [dispatchStep, h, hi, ht]

theorem dispatchStep_call {σ : Type} (lookup : HandlerLookup σ)
    (st : σ) (midi : MidiMessage) (f : Handler σ) (tab : LuaTable)
    (h : lookup st = some f) (hi : isInvalid midi = false)
    (ht : translate midi = some tab) :
    dispatchStep lookup st (.Midi midi) =
      match f tab st with
      | .ok st2 => (.running st2, [tab])
      | .error e => (.panicked e, [tab]) := by
  simp [dispatchStep, h, hi, ht]

/-- C3: draining a sequence with N valid (translatable) and M invalid or
unrecognized messages invokes the handler exactly N times; invalid and
unrecognized messages never trigger a call and never end the loop (the
thread is still running after the whole sequence). Holds for any script
with a registered handler that does not raise. -/
theorem dispatch_count_valid_messages {σ : Type}
    (lookup : HandlerLookup σ) (st : σ) (msgs : List Message)
    (hSome : ∀ s, (lookup s).isSome = true)
    (hOk : ∀ s f tab, lookup s = some f → ∃ s2, f tab s = .ok s2) :
    (dispatchLoop lookup st msgs).2.length = msgs.countP deliverable
    ∧ ∃ s2, (dispatchLoop lookup st msgs).1 = .running s2 := by
  induction msgs generalizing st with
  | nil => exact ⟨rfl, st, rfl⟩
  | cons m ms ih =>
    obtain ⟨midi⟩ := m
    obtain ⟨f, hf⟩ := Option.isSome_iff_exists.mp (hSome st)
    rw [List.countP_cons, dispatchLoop_cons]
    by_cases hInv : isInvalid midi = true
    · have hd : deliverable (.Midi midi) = false := by
        simp [deliverable, hInv]
      rw [dispatchStep_invalid lookup st midi f hf hInv, hd]
      simpa using ih st
    · have hInv' : isInvalid midi = false := by
        simpa using hInv
      cases ht : translate midi with
      | none =>
        have hd : deliverable (.Midi midi) = false := by
          simp [deliverable, hInv', ht]
        rw [dispatchStep_untranslatable lookup st midi f hf hInv' ht, hd]
        simpa using ih st
      | some tab =>
        have hd : deliverable (.Midi midi) = true := by
          simp [deliverable, hInv', ht]
        obtain ⟨s2, hs2⟩ := hOk st f tab hf
        rw [dispatchStep_call lookup st midi f tab hf hInv' ht, hs2, hd]
        obtain ⟨ihlen, ihrun⟩ := ih s2
        refine ⟨by simp [ihlen], by simpa using ihrun⟩

/-- C3 witness: two valid messages (a note-on and a pitch-bend) mixed
with two undeliverable ones (`Invalid` and a `SysEx` hitting the
catch-all arm), under a counting handler, give exactly two handler
invocations and a still-running loop. -/
theorem dispatch_count_valid_messages_witness :
    (∀ s : Nat, ((fun _ : Nat => some (fun (_ : LuaTable) (n : Nat) =>
        Except.ok (ε := String) (n + 1))) s).isSome = true)
    ∧ ((dispatchLoop
          (fun _ : Nat => some (fun (_ : LuaTable) (n : Nat) =>
            Except.ok (ε := String) (n + 1))) 0
          [Message.Midi (.NoteOn .Ch1 ⟨60, 100⟩), Message.Midi .Invalid,
           Message.Midi .SysEx,
           Message.Midi (.PitchBend .Ch1 0x34 0x12)]).2.length
        = List.countP deliverable
            [Message.Midi (.NoteOn .Ch1 ⟨60, 100⟩), Message.Midi .Invalid,
             Message.Midi .SysEx,
             Message.Midi (.PitchBend .Ch1 0x34 0x12)]
       ∧ ∃ s2, (dispatchLoop
          (fun _ : Nat => some (fun (_ : LuaTable) (n : Nat) =>
            Except.ok (ε := String) (n + 1))) 0
          [Message.Midi (.NoteOn .Ch1 ⟨60, 100⟩), Message.Midi .Invalid,
           Message.Midi .SysEx,
           Message.Midi (.PitchBend .Ch1 0x34 0x12)]).1 = .running s2) :=
  ⟨fun _ => rfl,
   dispatch_count_valid_messages _ 0 _ (fun _ => rfl)
     (fun s f tab hf => ⟨s + 1, by
        injection hf with h
        rw [← h]⟩)⟩

/-- C4: with a handler that appends each received record to a list,
draining a note-on (channel 0, key 60, velocity 100) followed by a
control-change (channel 1, control 7, value 127) leaves the list holding
exactly the two documented records, in that order; the delivery trace
shows the handler was called exactly once per message with the translated
record as sole argument. -/
theorem dispatch_end_to_end_scenario :
    dispatchLoop
      (fun _ : List LuaTable => some (fun tab l =>
        Except.ok (ε := String) (l ++ [tab])))
      []
      [Message.Midi (.NoteOn .Ch1 ⟨60, 100⟩),
       Message.Midi (.ControlChange .Ch2 ⟨7, 127⟩)]
    = (.running
        [[("event", .str "note_on"), ("channel", .num 0),
          ("key", .num 60), ("vel", .num 100), ("is_note", .bool true)],
         [("event", .str "control_change"), ("channel", .num 1),
          ("control", .num 7), ("value", .num 127)]],
       [[("event", .str "note_on"), ("channel", .num 0),
         ("key", .num 60), ("vel", .num 100), ("is_note", .bool true)],
        [("event", .str "control_change"), ("channel", .num 1),
         ("control", .num 7), ("value", .num 127)]]) := rfl

/-- C5: when the script defines no `on_midi_recv` handler (the lookup
fails at every state), every message is silently dropped after
translation: the whole sequence is drained, the state is untouched, no
record is ever delivered, and the loop never dies. -/
theorem missing_handler_silent_drop {σ : Type}
    (lookup : HandlerLookup σ) (st : σ) (msgs : List Message)
    (hNone : ∀ s, lookup s = none) :
    dispatchLoop lookup st msgs = (.running st, []) := by
  induction msgs generalizing st with
  | nil => rfl
  | cons m ms ih =>
    obtain ⟨midi⟩ := m
    unfold dispatchLoop dispatchStep
    rw [hNone st]
    simpa using ih st

/-- C5 witness: with no handler defined, a mixed concrete sequence leaves
the state unchanged, delivers nothing and keeps the thread alive. -/
theorem missing_handler_silent_drop_witness :
    dispatchLoop (fun _ : Nat => none) 7
      [Message.Midi (.NoteOn .Ch1 ⟨60, 100⟩), Message.Midi .Invalid,
       Message.Midi (.ControlChange .Ch2 ⟨7, 127⟩)]
    = (.running 7, []) :=
  missing_handler_silent_drop _ 7 _ (fun _ => rfl)

set_option maxHeartbeats 4000000 in
/-- C6: each of {script path missing, /dev/uinput unavailable (path
missing or open failing), `on_script_init` missing or failing}
independently ends the process with exit code 1 (after a diagnostic),
before the dispatch thread is spawned and before the bus is drained. -/
theorem bootstrap_fatal_before_dispatch (e : BootEnv) :
    (e.scriptPathExists = false →
       (bootTrace e).2 = .exited 1
       ∧ BootStep.spawnDispatchThread ∉ bootSteps e
       ∧ BootStep.drainBus ∉ bootSteps e)
    ∧ (e.scriptPathExists = true →
       (e.uinputPathExists = false ∨ e.uinputOpenOk = false) →
       (bootTrace e).2 = .exited 1
       ∧ BootStep.spawnDispatchThread ∉ bootSteps e
       ∧ BootStep.drainBus ∉ bootSteps e)
    ∧ (e.scriptPathExists = true ∧ e.uinputPathExists = true
       ∧ e.uinputOpenOk = true ∧ e.readScriptOk = true
       ∧ e.loadChunkOk = true ∧ e.registerMidiOk = true
       ∧ e.registerGamepadOk = true ∧ e.registerMiscOk = true
       ∧ e.execOk = true →
       (e.hasScriptInit = false ∨ e.scriptInitOk = false) →
       (bootTrace e).2 = .exited 1
       ∧ BootStep.spawnDispatchThread ∉ bootSteps e
       ∧ BootStep.drainBus ∉ bootSteps e) := by
  obtain ⟨a, b, c, d, f, g, h, i, j, k, l⟩ := e
  cases a <;> cases b <;> cases c <;> cases d <;> cases f <;> cases g <;>
    cases h <;> cases i <;> cases j <;> cases k <;> cases l <;> decide

/-- C6 witness: the three fatal conditions instantiated at concrete
environments, each exiting with code 1 before any dispatch. -/
theorem bootstrap_fatal_before_dispatch_witness :
    ((bootTrace ⟨false, true, true, true, true, true, true, true, true,
        true, true⟩).2 = .exited 1
     ∧ BootStep.spawnDispatchThread ∉ bootSteps ⟨false, true, true, true,
        true, true, true, true, true, true, true⟩
     ∧ BootStep.drainBus ∉ bootSteps ⟨false, true, true, true, true, true,
        true, true, true, true, true⟩)
    ∧ ((bootTrace ⟨true, false, true, true, true, true, true, true, true,
        true, true⟩).2 = .exited 1
     ∧ BootStep.spawnDispatchThread ∉ bootSteps ⟨true, false, true, true,
        true, true, true, true, true, true, true⟩
     ∧ BootStep.drainBus ∉ bootSteps ⟨true, false, true, true, true, true,
        true, true, true, true, true⟩)
    ∧ ((bootTrace ⟨true, true, true, true, true, true, true, true, true,
        false, true⟩).2 = .exited 1
     ∧ BootStep.spawnDispatchThread ∉ bootSteps ⟨true, true, true, true,
        true, true, true, true, true, false, true⟩
     ∧ BootStep.drainBus ∉ bootSteps ⟨true, true, true, true, true, true,
        true, true, true, false, true⟩) :=
  ⟨(bootstrap_fatal_before_dispatch _).1 rfl,
   (bootstrap_fatal_before_dispatch _).2.1 rfl (Or.inl rfl),
   (bootstrap_fatal_before_dispatch _).2.2
     ⟨rfl, rfl, rfl, rfl, rfl, rfl, rfl, rfl, rfl⟩ (Or.inl rfl)⟩

set_option maxHeartbeats 4000000 in
/-- C7: bootstrap order is strict: uinput is opened before the
interpreter is constructed; all three capability modules are registered
before the top level executes; `on_script_init` is looked up and called
only after top-level execution. -/
theorem bootstrap_strict_order (e : BootEnv) :
    (BootStep.newLua ∈ bootSteps e →
       BootStep.openUinput ∈ bootSteps e
       ∧ (bootSteps e).indexOf .openUinput < (bootSteps e).indexOf .newLua)
    ∧ (BootStep.execTopLevel ∈ bootSteps e →
       BootStep.registerMidi ∈ bootSteps e
       ∧ BootStep.registerGamepad ∈ bootSteps e
       ∧ BootStep.registerMisc ∈ bootSteps e
       ∧ (bootSteps e).indexOf .registerMidi
           < (bootSteps e).indexOf .execTopLevel
       ∧ (bootSteps e).indexOf .registerGamepad
           < (bootSteps e).indexOf .execTopLevel
       ∧ (bootSteps e).indexOf .registerMisc
           < (bootSteps e).indexOf .execTopLevel)
    ∧ (BootStep.lookupScriptInit ∈ bootSteps e →
       BootStep.execTopLevel ∈ bootSteps e
       ∧ (bootSteps e).indexOf .execTopLevel
           < (bootSteps e).indexOf .lookupScriptInit)
    ∧ (BootStep.callScriptInit ∈ bootSteps e →
       (bootSteps e).indexOf .lookupScriptInit
           < (bootSteps e).indexOf .callScriptInit) := by
  obtain ⟨a, b, c, d, f, g, h, i, j, k, l⟩ := e
  cases a <;> cases b <;> cases c <;> cases d <;> cases f <;> cases g <;>
    cases h <;> cases i <;> cases j <;> cases k <;> cases l <;> decide

/-- C7 witness: the orderings instantiated on the all-successful run. -/
theorem bootstrap_strict_order_witness :
    (BootStep.openUinput ∈ bootSteps ⟨true, true, true, true, true, true,
        true, true, true, true, true⟩
     ∧ (bootSteps ⟨true, true, true, true, true, true, true, true, true,
        true, true⟩).indexOf .openUinput
       < (bootSteps ⟨true, true, true, true, true, true, true, true, true,
        true, true⟩).indexOf .newLua)
    ∧ ((bootSteps ⟨true, true, true, true, true, true, true, true, true,
        true, true⟩).indexOf .lookupScriptInit
       < (bootSteps ⟨true, true, true, true, true, true, true, true, true,
        true, true⟩).indexOf .callScriptInit) :=
  ⟨(bootstrap_strict_order _).1 (by decide),
   (bootstrap_strict_order _).2.2.2 (by decide)⟩

set_option maxHeartbeats 4000000 in
/-- C8: if any capability module's `register_api` call fails when it
runs (all earlier bootstrap steps having succeeded), the process aborts
by panic (the `unwrap` diagnostic) before any script code runs: no
top-level execution, no init call, no dispatch thread. -/
theorem registration_failure_aborts (e : BootEnv) :
    e.scriptPathExists = true → e.uinputPathExists = true →
    e.uinputOpenOk = true → e.readScriptOk = true → e.loadChunkOk = true →
    (e.registerMidiOk = false ∨ e.registerGamepadOk = false
      ∨ e.registerMiscOk = false) →
    (bootTrace e).2 = .panickedBoot
    ∧ BootStep.execTopLevel ∉ bootSteps e
    ∧ BootStep.callScriptInit ∉ bootSteps e
    ∧ BootStep.spawnDispatchThread ∉ bootSteps e
    ∧ BootStep.drainBus ∉ bootSteps e := by
  obtain ⟨a, b, c, d, f, g, h, i, j, k, l⟩ := e
  cases a <;> cases b <;> cases c <;> cases d <;> cases f <;> cases g <;>
    cases h <;> cases i <;> cases j <;> cases k <;> cases l <;> decide

/-- C8 witness: the gamepad module's registration failing aborts the
process before any script code runs. -/
theorem registration_failure_aborts_witness :
    (bootTrace ⟨true, true, true, true, true, true, false, true, true,
        true, true⟩).2 = .panickedBoot
    ∧ BootStep.execTopLevel ∉ bootSteps ⟨true, true, true, true, true,
        true, false, true, true, true, true⟩
    ∧ BootStep.callScriptInit ∉ bootSteps ⟨true, true, true, true, true,
        true, false, true, true, true, true⟩
    ∧ BootStep.spawnDispatchThread ∉ bootSteps ⟨true, true, true, true,
        true, true, false, true, true, true, true⟩
    ∧ BootStep.drainBus ∉ bootSteps ⟨true, true, true, true, true, true,
        false, true, true, true, true⟩ :=
  registration_failure_aborts _ rfl rfl rfl rfl rfl (Or.inr (Or.inl rfl))

/-- C9: a script-level error raised inside a registered `on_midi_recv`
handler is unconditionally fatal to the dispatching thread: the `unwrap`
turns it into a panic, so the loop ends in `panicked` and every later
message goes unprocessed — it is not logged and skipped. -/
theorem handler_error_fatal {σ : Type} (lookup : HandlerLookup σ)
    (st : σ) (midi : MidiMessage) (f : Handler σ) (tab : LuaTable)
    (e : String) (rest : List Message)
    (hl : lookup st = some f) (hi : isInvalid midi = false)
    (ht : translate midi = some tab) (hf : f tab st = .error e) :
    dispatchLoop lookup st (.Midi midi :: rest) = (.panicked e, [tab]) := by
  rw [dispatchLoop_cons, dispatchStep_call lookup st midi f tab hl hi ht,
    hf]

/-- C9 witness: a handler raising on a note-on kills the thread and the
following message is never delivered, whatever it is. -/
theorem handler_error_fatal_witness :
    dispatchLoop
      (fun _ : Nat => some (fun (_ : LuaTable) (_ : Nat) =>
        Except.error (α := Nat) "boom"))
      0
      [Message.Midi (.NoteOn .Ch1 ⟨60, 100⟩),
       Message.Midi (.ControlChange .Ch2 ⟨7, 127⟩)]
    = (.panicked "boom",
       [[("event", .str "note_on"), ("channel", .num 0), ("key", .num 60),
         ("vel", .num 100), ("is_note", .bool true)]]) :=
  handler_error_fatal _ 0 (.NoteOn .Ch1 ⟨60, 100⟩) _
    [("event", .str "note_on"), ("channel", .num 0), ("key", .num 60),
     ("vel", .num 100), ("is_note", .bool true)]
    "boom" [Message.Midi (.ControlChange .Ch2 ⟨7, 127⟩)] rfl rfl rfl rfl

/-- C10: `on_midi_recv` is resolved from the interpreter's globals afresh
for every message. Whether a message is delivered depends only on the
lookup at the state in which it is processed (first conjunct), and the
remaining messages are dispatched from the state the handler left behind,
so a handler the script defines or removes mid-run takes effect for all
subsequent messages (second conjunct). -/
theorem per_message_handler_lookup {σ : Type} (lookup : HandlerLookup σ)
    (st : σ) (midi : MidiMessage) (ms : List Message) :
    ((dispatchStep lookup st (.Midi midi)).2
        = if ((lookup st).isSome && deliverable (.Midi midi)) = true
          then (translate midi).toList else [])
    ∧ (∀ (st2 : σ) (r : List LuaTable),
        dispatchStep lookup st (.Midi midi) = (.running st2, r) →
        dispatchLoop lookup st (.Midi midi :: ms)
          = ((dispatchLoop lookup st2 ms).1,
             r ++ (dispatchLoop lookup st2 ms).2)) := by
  constructor
  · cases hl : lookup st with
    | none =>
      rw [dispatchStep_no_handler lookup st midi hl]
      simp [hl]
    | some f =>
      by_cases hi : isInvalid midi = true
      · rw [dispatchStep_invalid lookup st midi f hl hi]
        simp [deliverable, hi]
      · have hi' : isInvalid midi = false := by simpa using hi
        cases ht : translate midi with
        | none =>
          rw [dispatchStep_untranslatable lookup st midi f hl hi' ht]
          simp [deliverable, hi', ht]
        | some tab =>
          rw [dispatchStep_call lookup st midi f tab hl hi' ht]
          cases hf : f tab st <;> simp [hl, deliverable, hi', ht]
  · intro st2 r h
    rw [dispatchLoop_cons, h]

/-- C10 witness: a state-dependent lookup (the handler, once called,
removes itself from the globals) delivers the first message and silently
drops the second, within one run. -/
theorem per_message_handler_lookup_witness :
    ((dispatchStep
        (fun b : Bool => if b then
          some (fun (_ : LuaTable) (_ : Bool) =>
            Except.ok (ε := String) false) else none)
        true (.Midi (.NoteOn .Ch1 ⟨60, 100⟩))).2
      = if (((fun b : Bool => if b then
            some (fun (_ : LuaTable) (_ : Bool) =>
              Except.ok (ε := String) false) else none) true).isSome
            && deliverable (.Midi (.NoteOn .Ch1 ⟨60, 100⟩))) = true
        then (translate (.NoteOn .Ch1 ⟨60, 100⟩)).toList else [])
    ∧ dispatchLoop
        (fun b : Bool => if b then
          some (fun (_ : LuaTable) (_ : Bool) =>
            Except.ok (ε := String) false) else none)
        true
        [Message.Midi (.NoteOn .Ch1 ⟨60, 100⟩),
         Message.Midi (.NoteOn .Ch1 ⟨61, 50⟩)]
      = ((dispatchLoop
            (fun b : Bool => if b then
              some (fun (_ : LuaTable) (_ : Bool) =>
                Except.ok (ε := String) false) else none)
            false [Message.Midi (.NoteOn .Ch1 ⟨61, 50⟩)]).1,
         [[("event", .str "note_on"), ("channel", .num 0),
           ("key", .num 60), ("vel", .num 100), ("is_note", .bool true)]]
           ++ (dispatchLoop
            (fun b : Bool => if b then
              some (fun (_ : LuaTable) (_ : Bool) =>
                Except.ok (ε := String) false) else none)
            false [Message.Midi (.NoteOn .Ch1 ⟨61, 50⟩)]).2) :=
  ⟨(per_message_handler_lookup _ true (.NoteOn .Ch1 ⟨60, 100⟩) []).1,
   (per_message_handler_lookup _ true (.NoteOn .Ch1 ⟨60, 100⟩)
      [Message.Midi (.NoteOn .Ch1 ⟨61, 50⟩)]).2 false
     [[("event", .str "note_on"), ("channel", .num 0), ("key", .num 60),
       ("vel", .num 100), ("is_note", .bool true)]] rfl⟩

end Handcake
